import Mathlib

/-!
Shallow embedding of the update/reload orchestrator of pkg/haproxy/instance.go
(haproxy-ingress).  Collaborator calls (Config, dynamic updater, metrics,
queues, leader elector, master/admin sockets) are modelled as an environment
of oracle values; their invocations are recorded as an explicit event trace.
-/

namespace HAProxy

/-- Observable effects of one tick: calls into the metrics registry, the
Config collaborator, the queues and the acme work queue, in program order. -/
inductive Event where
  | incUpdateNoop
  | incUpdateDynamic
  | incUpdateFull
  | sortChangedEndpoints (criterion : String)
  | shuffleAllEndpoints
  | fillSourceIPs
  | writeConfigFiles
  | updateSuccessfulMetric (success : Bool)
  | setCertExpireDate (hostname : String) (commonName : String) (notAfter : Option Nat)
  | clearCertExpire
  | reloadEnqueued
  | acmeQueueAdd (storage : String)
  | acmeQueueRemove (storage : String)
  | logSkipAcmeUpdate
  | commit
  deriving DecidableEq, Repr

/-- TLS state of one host entry (hatypes.Host.TLS), as far as
updateCertExpiring reads it: HasTLS(), TLSCommonName, TLSNotAfter.
Timestamps are modelled as naturals. -/
structure TLSData where
  hasTLS : Bool
  commonName : String
  notAfter : Nat
  deriving DecidableEq, Repr

/-- The subset of InstanceOptions the orchestrator branches on.  A queue
field is true when the corresponding queue is configured (non-nil). -/
structure InstanceOptions where
  acmeQueue : Bool
  reloadQueue : Bool
  sortEndpointsBy : String
  validateConfig : Bool
  fake : Bool
  deriving DecidableEq, Repr

/-- The mutable fields of the instance struct, plus whether a Config has
been attached (i.config == nil is configNil = true). -/
structure Inst where
  up : Bool
  failedSince : Option Nat
  configNil : Bool
  options : InstanceOptions
  deriving DecidableEq, Repr

/-- Results of the collaborator calls made during one tick: map/config file
write errors, the dynamic updater verdict, socket command results, leader
election, acme storages and the host change-sets. -/
structure Env where
  writeTCPErr : Bool
  writeFrontendErr : Bool
  writeBackendErr : Bool
  updated : Bool
  cmdCnt : Nat
  writeConfigErr : Bool
  checkCmdErr : Bool
  isExternal : Bool
  embeddedReloadErr : Bool
  firstContactSigterm : Bool
  masterReloadErr : Bool
  procsErr : Bool
  workers : Nat
  now : Nat
  isLeader : Bool
  leaderName : String
  hasAccount : Bool
  storagesUpdated : Bool
  storagesAdd : List String
  storagesDel : List String
  buildAcmeStorages : List String
  hostsAdd : List (String × TLSData)
  hostsDel : List (String × TLSData)
  hasCommit : Bool
  deriving DecidableEq, Repr

/-- instance.updateSuccessful: clears failedSince on success, stamps it on
the first failure only, always reports to metrics. -/
def updateSuccessful (i : Inst) (env : Env) (success : Bool) : Inst × List Event :=
  if success then
    ({ i with failedSince := none }, [Event.updateSuccessfulMetric true])
  else if i.failedSince = none then
    ({ i with failedSince := some env.now }, [Event.updateSuccessfulMetric false])
  else
    (i, [Event.updateSuccessfulMetric false])

/-- instance.reloadEmbedded: runs the reload script; failure is a non-zero
exit, modelled as an oracle bit. -/
def reloadEmbedded (env : Env) : Except String Unit :=
  if env.embeddedReloadErr then Except.error "reload script failed"
  else Except.ok ()

/-- instance.reloadExternal: on first run (up==false) waits for the master
socket, a wait that ends either successfully or by the stop channel
(firstContactSigterm); then sends reload, queries show proc, and fails hard
when the worker list is empty. -/
def reloadExternal (i : Inst) (env : Env) : Except String Unit :=
  if !i.up && env.firstContactSigterm then
    Except.error "received sigterm"
  else if env.masterReloadErr then
    Except.error "error sending reload to master socket"
  else if env.procsErr then
    Except.error "error reading procs from master socket"
  else if env.workers = 0 then
    Except.error "external haproxy was not successfully reloaded"
  else
    Except.ok ()

/-- instance.reloadHAProxy: fake skips, otherwise dispatches on whether the
data plane is external. -/
def reloadHAProxy (i : Inst) (env : Env) : Except String Unit :=
  if i.options.fake then Except.ok ()
  else if env.isExternal then reloadExternal i env
  else reloadEmbedded env

/-- instance.Reload: bumps the full-reload counter first, attempts the
reload, records failure, or sets up=true and records success. -/
def Reload (i : Inst) (env : Env) : Inst × List Event :=
  let ev0 := [Event.incUpdateFull]
  match reloadHAProxy i env with
  | Except.error _ =>
    let r := updateSuccessful i env false
    (r.1, ev0 ++ r.2)
  | Except.ok _ =>
    let i1 := { i with up := true }
    let r := updateSuccessful i1 env true
    (r.1, ev0 ++ r.2)

/-- instance.check: validates the written config file; skipped (succeeds)
when fake or when the data plane is external. -/
def check (i : Inst) (env : Env) : Bool :=
  if i.options.fake then true
  else if env.isExternal then true
  else !env.checkCmdErr

/-- First loop of instance.updateCertExpiring: for every removed host with
TLS whose added counterpart is missing or has a different common name,
clear its gauge. -/
def certExpireDelEvents (hostsAdd hostsDel : List (String × TLSData)) : List Event :=
  hostsDel.flatMap fun p =>
    if p.2.hasTLS then
      match hostsAdd.lookup p.1 with
      | none => [Event.setCertExpireDate p.1 p.2.commonName none]
      | some curHost =>
        if p.2.commonName ≠ curHost.commonName then
          [Event.setCertExpireDate p.1 p.2.commonName none]
        else []
    else []

/-- Second loop of instance.updateCertExpiring: for every added host with
TLS whose removed counterpart is missing or differs in common name or
not-after, set its gauge to the new not-after. -/
def certExpireAddEvents (hostsAdd hostsDel : List (String × TLSData)) : List Event :=
  hostsAdd.flatMap fun p =>
    if p.2.hasTLS then
      match hostsDel.lookup p.1 with
      | none => [Event.setCertExpireDate p.1 p.2.commonName (some p.2.notAfter)]
      | some oldHost =>
        if oldHost.commonName ≠ p.2.commonName ∨ oldHost.notAfter ≠ p.2.notAfter then
          [Event.setCertExpireDate p.1 p.2.commonName (some p.2.notAfter)]
        else []
    else []

/-- instance.updateCertExpiring: wholesale clear when the host set has no
commit, then the removed-host loop, then the added-host loop. -/
def updateCertExpiring (env : Env) : List Event :=
  (if !env.hasCommit then [Event.clearCertExpire] else [])
    ++ certExpireDelEvents env.hostsAdd env.hostsDel
    ++ certExpireAddEvents env.hostsAdd env.hostsDel

/-- Body of instance.haproxyUpdate after the nil-config guard and before the
deferred Commit: map building, dynamic update, endpoint ordering, config
write, cert bookkeeping and the dynamic-vs-reload branch. -/
def haproxyUpdateBody (i : Inst) (env : Env) : Inst × List Event :=
  if env.writeTCPErr then (i, [Event.incUpdateNoop])
  else if env.writeFrontendErr then (i, [Event.incUpdateNoop])
  else if env.writeBackendErr then (i, [Event.incUpdateNoop])
  else
    let updated := env.updated
    let sortEv : List Event :=
      if i.options.sortEndpointsBy ≠ "random" then
        [Event.sortChangedEndpoints i.options.sortEndpointsBy]
      else if !updated then [Event.shuffleAllEndpoints]
      else []
    let evA := sortEv ++ [Event.fillSourceIPs]
    let needsWrite := !updated || decide (env.cmdCnt > 0)
    if needsWrite && env.writeConfigErr then
      (i, evA ++ [Event.writeConfigFiles, Event.incUpdateNoop])
    else
      let evB := evA ++ (if needsWrite then [Event.writeConfigFiles] else [])
        ++ updateCertExpiring env
      if updated then
        if env.cmdCnt > 0 then
          let r :=
            if i.options.validateConfig then updateSuccessful i env (check i env)
            else (i, [])
          (r.1, evB ++ r.2 ++ [Event.incUpdateDynamic])
        else
          (i, evB ++ [Event.incUpdateNoop])
      else
        if i.options.reloadQueue then
          (i, evB ++ [Event.reloadEnqueued])
        else
          let r := Reload i env
          (r.1, evB ++ r.2)

/-- instance.haproxyUpdate: returns immediately on a nil config; otherwise
runs the body with the Commit deferred to the very end of the tick. -/
def haproxyUpdate (i : Inst) (env : Env) : Inst × List Event :=
  if i.configNil then (i, [])
  else
    let r := haproxyUpdateBody i env
    (r.1, r.2 ++ [Event.commit])

/-- instance.acmeUpdate: no-op without a config or queue; leaders establish
the account then enqueue the added and remove the deleted storages;
non-leaders log a skip notice only when the storages changed. -/
def acmeUpdate (i : Inst) (env : Env) : List Event :=
  if i.configNil || !i.options.acmeQueue then []
  else if env.isLeader then
    if !env.hasAccount then []
    else
      env.storagesAdd.map Event.acmeQueueAdd
        ++ env.storagesDel.map Event.acmeQueueRemove
  else if env.storagesUpdated then [Event.logSkipAcmeUpdate]
  else []

/-- instance.Update: one orchestrator tick — acme scheduling then the
haproxy update body. -/
def Update (i : Inst) (env : Env) : Inst × List Event :=
  let evAcme := acmeUpdate i env
  let r := haproxyUpdate i env
  (r.1, evAcme ++ r.2)

/-- instance.AcmeCheck: guards in source order (not up, queue missing, no
account, not leader), then enqueues every storage and returns the count.
The instance state is returned unchanged: the source performs no field
writes here. -/
def AcmeCheck (i : Inst) (env : Env) : Inst × Except String Nat × List Event :=
  if !i.up then
    (i, Except.error "controller was not started yet", [])
  else if !i.options.acmeQueue then
    (i, Except.error "Acme queue was not configured", [])
  else if !env.hasAccount then
    (i, Except.error "Cannot create or retrieve the acme client account", [])
  else if !env.isLeader then
    (i, Except.error ("skipping acme periodic check, leader is " ++ env.leaderName), [])
  else
    (i, Except.ok env.buildAcmeStorages.length,
      env.buildAcmeStorages.map Event.acmeQueueAdd)

/-- instance.CalcIdleMetric: reads the admin socket and the metrics
registry only; instance fields are never assigned. -/
def CalcIdleMetric (i : Inst) (_env : Env) : Inst := i

/-- Whether reloadHAProxy succeeds, as a boolean. -/
def reloadOk (i : Inst) (env : Env) : Bool :=
  match reloadHAProxy i env with
  | Except.ok _ => true
  | Except.error _ => false

/-- A concrete options record used to instantiate theorems. -/
def baseOpts : InstanceOptions :=
  { acmeQueue := false, reloadQueue := false, sortEndpointsBy := "random",
    validateConfig := false, fake := true }

/-- A concrete instance state used to instantiate theorems. -/
def baseInst : Inst :=
  { up := false, failedSince := none, configNil := false, options := baseOpts }

/-- A concrete environment used to instantiate theorems: no errors, dynamic
update fails (updated=false), no queues, not leader. -/
def baseEnv : Env :=
  { writeTCPErr := false, writeFrontendErr := false, writeBackendErr := false,
    updated := false, cmdCnt := 0, writeConfigErr := false, checkCmdErr := false,
    isExternal := false, embeddedReloadErr := false, firstContactSigterm := false,
    masterReloadErr := false, procsErr := false, workers := 1, now := 5,
    isLeader := false, leaderName := "other", hasAccount := true,
    storagesUpdated := false, storagesAdd := [], storagesDel := [],
    buildAcmeStorages := [], hostsAdd := [], hostsDel := [], hasCommit := true }

/-- baseOpts with real (non-fake) reload calls. -/
def realOpts : InstanceOptions := { baseOpts with fake := false }

/-- baseInst performing real reload calls. -/
def realInst : Inst := { baseInst with options := realOpts }

/-- realInst already failing since time 3. -/
def failingInst : Inst := { realInst with failedSince := some 3 }

/-- baseEnv whose embedded reload script fails. -/
def failEnv : Env := { baseEnv with embeddedReloadErr := true }

/-- baseInst after a first successful reload (up already true). -/
def upInst : Inst := { baseInst with up := true }

/-- A TLS state with common name cn1 expiring at 100. -/
def tlsA : TLSData := { hasTLS := true, commonName := "cn1", notAfter := 100 }

/-- Same common name as tlsA, different not-after. -/
def tlsB : TLSData := { hasTLS := true, commonName := "cn1", notAfter := 200 }

/-- Tick whose only host is removed and re-added with identical TLS. -/
def certEnvSame : Env :=
  { baseEnv with
      hostsAdd := [("a.example.com", tlsA)],
      hostsDel := [("a.example.com", tlsA)] }

/-- Tick whose only host is removed and re-added with a renewed not-after. -/
def certEnvDiff : Env :=
  { baseEnv with
      hostsAdd := [("a.example.com", tlsB)],
      hostsDel := [("a.example.com", tlsA)] }

end HAProxy

namespace HAProxy

theorem updateSuccessful_snd (i : Inst) (env : Env) (b : Bool) :
    (updateSuccessful i env b).2 = [Event.updateSuccessfulMetric b] := by
  cases b with
  | true => simp [updateSuccessful]
  | false =>
    unfold updateSuccessful
    simp only [Bool.false_eq_true, if_false]
    split <;> rfl

theorem updateSuccessful_fst_up (i : Inst) (env : Env) (b : Bool) :
    (updateSuccessful i env b).1.up = i.up := by
  cases b with
  | true => simp [updateSuccessful]
  | false =>
    unfold updateSuccessful
    simp only [Bool.false_eq_true, if_false]
    split <;> rfl

theorem updateSuccessful_fst_failedSince (i : Inst) (env : Env) :
    (updateSuccessful i env false).1.failedSince = some (i.failedSince.getD env.now) := by
  unfold updateSuccessful
  simp only [Bool.false_eq_true, if_false]
  split
  · simp_all
  · cases h : i.failedSince with
    | none => simp_all
    | some t => simp [h]

theorem Reload_snd (i : Inst) (env : Env) :
    (Reload i env).2 = [Event.incUpdateFull, Event.updateSuccessfulMetric (reloadOk i env)] := by
  unfold Reload reloadOk
  cases h : reloadHAProxy i env <;> simp [updateSuccessful_snd]

theorem Reload_fst_up (i : Inst) (env : Env) :
    (Reload i env).1.up = (i.up || reloadOk i env) := by
  unfold Reload reloadOk
  cases h : reloadHAProxy i env <;> simp [updateSuccessful_fst_up]

theorem mem_certExpireDelEvents {a d : List (String × TLSData)} {e : Event}
    (h : e ∈ certExpireDelEvents a d) :
    ∃ hn c, e = Event.setCertExpireDate hn c none := by
  rw [certExpireDelEvents, List.mem_flatMap] at h
  obtain ⟨p, _, hmem⟩ := h
  split at hmem
  · split at hmem
    · simp at hmem
      exact ⟨p.1, p.2.commonName, hmem⟩
    · split at hmem
      · simp at hmem
        exact ⟨p.1, p.2.commonName, hmem⟩
      · simp at hmem
  · simp at hmem

theorem mem_certExpireAddEvents {a d : List (String × TLSData)} {e : Event}
    (h : e ∈ certExpireAddEvents a d) :
    ∃ hn c n, e = Event.setCertExpireDate hn c (some n) := by
  rw [certExpireAddEvents, List.mem_flatMap] at h
  obtain ⟨p, _, hmem⟩ := h
  split at hmem
  · split at hmem
    · simp at hmem
      exact ⟨p.1, p.2.commonName, p.2.notAfter, hmem⟩
    · split at hmem
      · simp at hmem
        exact ⟨p.1, p.2.commonName, p.2.notAfter, hmem⟩
      · simp at hmem
  · simp at hmem

theorem mem_updateCertExpiring {env : Env} {e : Event}
    (h : e ∈ updateCertExpiring env) :
    e = Event.clearCertExpire ∨ ∃ hn c n, e = Event.setCertExpireDate hn c n := by
  rw [updateCertExpiring] at h
  rcases List.mem_append.1 h with h1 | h1
  · rcases List.mem_append.1 h1 with h2 | h2
    · left
      split at h2 <;> simp_all
    · right
      obtain ⟨hn, c, he⟩ := mem_certExpireDelEvents h2
      exact ⟨hn, c, none, he⟩
  · right
    obtain ⟨hn, c, n, he⟩ := mem_certExpireAddEvents h1
    exact ⟨hn, c, some n, he⟩

theorem mem_acmeUpdate {i : Inst} {env : Env} {e : Event}
    (h : e ∈ acmeUpdate i env) :
    (∃ s, e = Event.acmeQueueAdd s) ∨ (∃ s, e = Event.acmeQueueRemove s) ∨
      e = Event.logSkipAcmeUpdate := by
  rw [acmeUpdate] at h
  split at h
  · simp at h
  · split at h
    · split at h
      · simp at h
      · rcases List.mem_append.1 h with h1 | h1
        · obtain ⟨s, _, he⟩ := List.mem_map.1 h1
          exact Or.inl ⟨s, he.symm⟩
        · obtain ⟨s, _, he⟩ := List.mem_map.1 h1
          exact Or.inr (Or.inl ⟨s, he.symm⟩)
    · split at h
      · simp at h
        exact Or.inr (Or.inr h)
      · simp at h

theorem Reload_fst_failedSince (i : Inst) (env : Env) :
    (Reload i env).1.failedSince =
      if reloadOk i env then none else some (i.failedSince.getD env.now) := by
  unfold Reload reloadOk
  cases h : reloadHAProxy i env with
  | error e => simp [updateSuccessful_fst_failedSince]
  | ok u => simp [updateSuccessful]

end HAProxy

namespace HAProxy

theorem not_mem_updateCertExpiring (env : Env) (e : Event)
    (hclear : e ≠ Event.clearCertExpire)
    (hset : ∀ hn c n, e ≠ Event.setCertExpireDate hn c n) :
    e ∉ updateCertExpiring env := by
  intro h
  rcases mem_updateCertExpiring h with h2 | ⟨hn, c, n, h2⟩
  · exact hclear h2
  · exact hset hn c n h2

theorem commit_not_mem_updateCertExpiring (env : Env) :
    Event.commit ∉ updateCertExpiring env :=
  not_mem_updateCertExpiring env _ (by simp) (by simp)

theorem incUpdateFull_not_mem_updateCertExpiring (env : Env) :
    Event.incUpdateFull ∉ updateCertExpiring env :=
  not_mem_updateCertExpiring env _ (by simp) (by simp)

theorem reloadEnqueued_not_mem_updateCertExpiring (env : Env) :
    Event.reloadEnqueued ∉ updateCertExpiring env :=
  not_mem_updateCertExpiring env _ (by simp) (by simp)

theorem shuffle_not_mem_updateCertExpiring (env : Env) :
    Event.shuffleAllEndpoints ∉ updateCertExpiring env :=
  not_mem_updateCertExpiring env _ (by simp) (by simp)

theorem sortChanged_not_mem_updateCertExpiring (env : Env) (s : String) :
    Event.sortChangedEndpoints s ∉ updateCertExpiring env :=
  not_mem_updateCertExpiring env _ (by simp) (by simp)

theorem not_mem_acmeUpdate (i : Inst) (env : Env) (e : Event)
    (hadd : ∀ s, e ≠ Event.acmeQueueAdd s)
    (hdel : ∀ s, e ≠ Event.acmeQueueRemove s)
    (hskip : e ≠ Event.logSkipAcmeUpdate) :
    e ∉ acmeUpdate i env := by
  intro h
  rcases mem_acmeUpdate h with ⟨s, h2⟩ | ⟨s, h2⟩ | h2
  · exact hadd s h2
  · exact hdel s h2
  · exact hskip h2

theorem commit_not_mem_acmeUpdate (i : Inst) (env : Env) :
    Event.commit ∉ acmeUpdate i env :=
  not_mem_acmeUpdate i env _ (by simp) (by simp) (by simp)

theorem incUpdateFull_not_mem_acmeUpdate (i : Inst) (env : Env) :
    Event.incUpdateFull ∉ acmeUpdate i env :=
  not_mem_acmeUpdate i env _ (by simp) (by simp) (by simp)

theorem reloadEnqueued_not_mem_acmeUpdate (i : Inst) (env : Env) :
    Event.reloadEnqueued ∉ acmeUpdate i env :=
  not_mem_acmeUpdate i env _ (by simp) (by simp) (by simp)

theorem shuffle_not_mem_acmeUpdate (i : Inst) (env : Env) :
    Event.shuffleAllEndpoints ∉ acmeUpdate i env :=
  not_mem_acmeUpdate i env _ (by simp) (by simp) (by simp)

theorem sortChanged_not_mem_acmeUpdate (i : Inst) (env : Env) (s : String) :
    Event.sortChangedEndpoints s ∉ acmeUpdate i env :=
  not_mem_acmeUpdate i env _ (by simp) (by simp) (by simp)

theorem commit_not_mem_haproxyUpdateBody (i : Inst) (env : Env) :
    Event.commit ∉ (haproxyUpdateBody i env).2 := by
  cases h1 : env.writeTCPErr <;> cases h2 : env.writeFrontendErr <;>
    cases h3 : env.writeBackendErr <;> cases h4 : env.updated <;>
    cases h5 : env.writeConfigErr <;> cases h6 : i.options.reloadQueue <;>
    cases h7 : i.options.validateConfig <;>
    by_cases h8 : i.options.sortEndpointsBy = "random" <;>
    cases h9 : env.cmdCnt <;>
    simp [haproxyUpdateBody, h1, h2, h3, h4, h5, h6, h7, h8, h9,
      updateSuccessful_snd, Reload_snd, commit_not_mem_updateCertExpiring]

theorem incUpdateFull_mem_haproxyUpdateBody (i : Inst) (env : Env)
    (h1 : env.writeTCPErr = false) (h2 : env.writeFrontendErr = false)
    (h3 : env.writeBackendErr = false) :
    Event.incUpdateFull ∈ (haproxyUpdateBody i env).2 ↔
      env.updated = false ∧ env.writeConfigErr = false ∧
        i.options.reloadQueue = false := by
  cases h4 : env.updated <;>
    cases h5 : env.writeConfigErr <;> cases h6 : i.options.reloadQueue <;>
    cases h7 : i.options.validateConfig <;>
    by_cases h8 : i.options.sortEndpointsBy = "random" <;>
    cases h9 : env.cmdCnt <;>
    simp [haproxyUpdateBody, h1, h2, h3, h4, h5, h6, h7, h8, h9,
      updateSuccessful_snd, Reload_snd, incUpdateFull_not_mem_updateCertExpiring]

theorem reloadEnqueued_mem_haproxyUpdateBody (i : Inst) (env : Env)
    (h1 : env.writeTCPErr = false) (h2 : env.writeFrontendErr = false)
    (h3 : env.writeBackendErr = false) :
    Event.reloadEnqueued ∈ (haproxyUpdateBody i env).2 ↔
      env.updated = false ∧ env.writeConfigErr = false ∧
        i.options.reloadQueue = true := by
  cases h4 : env.updated <;>
    cases h5 : env.writeConfigErr <;> cases h6 : i.options.reloadQueue <;>
    cases h7 : i.options.validateConfig <;>
    by_cases h8 : i.options.sortEndpointsBy = "random" <;>
    cases h9 : env.cmdCnt <;>
    simp [haproxyUpdateBody, h1, h2, h3, h4, h5, h6, h7, h8, h9,
      updateSuccessful_snd, Reload_snd, reloadEnqueued_not_mem_updateCertExpiring]

theorem shuffle_mem_haproxyUpdateBody (i : Inst) (env : Env)
    (h1 : env.writeTCPErr = false) (h2 : env.writeFrontendErr = false)
    (h3 : env.writeBackendErr = false) :
    Event.shuffleAllEndpoints ∈ (haproxyUpdateBody i env).2 ↔
      i.options.sortEndpointsBy = "random" ∧ env.updated = false := by
  cases h4 : env.updated <;>
    cases h5 : env.writeConfigErr <;> cases h6 : i.options.reloadQueue <;>
    cases h7 : i.options.validateConfig <;>
    by_cases h8 : i.options.sortEndpointsBy = "random" <;>
    cases h9 : env.cmdCnt <;>
    simp [haproxyUpdateBody, h1, h2, h3, h4, h5, h6, h7, h8, h9,
      updateSuccessful_snd, Reload_snd, shuffle_not_mem_updateCertExpiring]

theorem sortChanged_mem_haproxyUpdateBody (i : Inst) (env : Env)
    (h1 : env.writeTCPErr = false) (h2 : env.writeFrontendErr = false)
    (h3 : env.writeBackendErr = false) :
    Event.sortChangedEndpoints i.options.sortEndpointsBy ∈ (haproxyUpdateBody i env).2 ↔
      i.options.sortEndpointsBy ≠ "random" := by
  cases h4 : env.updated <;>
    cases h5 : env.writeConfigErr <;> cases h6 : i.options.reloadQueue <;>
    cases h7 : i.options.validateConfig <;>
    by_cases h8 : i.options.sortEndpointsBy = "random" <;>
    cases h9 : env.cmdCnt <;>
    simp [haproxyUpdateBody, h1, h2, h3, h4, h5, h6, h7, h8, h9,
      updateSuccessful_snd, Reload_snd, sortChanged_not_mem_updateCertExpiring]

end HAProxy

namespace HAProxy

theorem Update_snd (i : Inst) (env : Env) (hc : i.configNil = false) :
    (Update i env).2 =
      (acmeUpdate i env ++ (haproxyUpdateBody i env).2) ++ [Event.commit] := by
  simp [Update, haproxyUpdate, hc]

/-- C1 counterexample: a tick whose dynamic updater reports updated=false
but whose config-file write fails performs neither a synchronous reload nor
an enqueue, refuting the claim as stated. -/
theorem c1_counterexample :
    ({ baseEnv with writeConfigErr := true } : Env).updated = false ∧
      baseInst.configNil = false ∧
      ({ baseEnv with writeConfigErr := true } : Env).writeTCPErr = false ∧
      ({ baseEnv with writeConfigErr := true } : Env).writeFrontendErr = false ∧
      ({ baseEnv with writeConfigErr := true } : Env).writeBackendErr = false ∧
      Event.incUpdateFull ∉ (Update baseInst { baseEnv with writeConfigErr := true }).2 ∧
      Event.reloadEnqueued ∉ (Update baseInst { baseEnv with writeConfigErr := true }).2 := by
  decide

/-- C1 (amended): in every tick where the dynamic updater reports
updated=false and the subsequent config-file write succeeds, exactly one of
the synchronous reload (marked by its unconditional full-reload counter
increment) and the reload enqueue occurs: the former exactly when no reload
queue is configured, the latter exactly when one is. -/
theorem c1_reload_xor_enqueue (i : Inst) (env : Env)
    (hc : i.configNil = false)
    (h1 : env.writeTCPErr = false) (h2 : env.writeFrontendErr = false)
    (h3 : env.writeBackendErr = false)
    (hupd : env.updated = false) (hw : env.writeConfigErr = false) :
    (Event.incUpdateFull ∈ (Update i env).2 ↔ i.options.reloadQueue = false) ∧
      (Event.reloadEnqueued ∈ (Update i env).2 ↔ i.options.reloadQueue = true) := by
  rw [Update_snd i env hc]
  constructor
  · rw [List.mem_append, List.mem_append]
    constructor
    · rintro ((h | h) | h)
      · exact absurd h (incUpdateFull_not_mem_acmeUpdate i env)
      · exact ((incUpdateFull_mem_haproxyUpdateBody i env h1 h2 h3).1 h).2.2
      · simp at h
    · intro hq
      exact Or.inl (Or.inr
        ((incUpdateFull_mem_haproxyUpdateBody i env h1 h2 h3).2 ⟨hupd, hw, hq⟩))
  · rw [List.mem_append, List.mem_append]
    constructor
    · rintro ((h | h) | h)
      · exact absurd h (reloadEnqueued_not_mem_acmeUpdate i env)
      · exact ((reloadEnqueued_mem_haproxyUpdateBody i env h1 h2 h3).1 h).2.2
      · simp at h
    · intro hq
      exact Or.inl (Or.inr
        ((reloadEnqueued_mem_haproxyUpdateBody i env h1 h2 h3).2 ⟨hupd, hw, hq⟩))

/-- C1 witness: with no reload queue configured the synchronous reload runs
and nothing is enqueued. -/
theorem c1_witness :
    Event.incUpdateFull ∈ (Update baseInst baseEnv).2 ∧
      Event.reloadEnqueued ∉ (Update baseInst baseEnv).2 := by
  have h := c1_reload_xor_enqueue baseInst baseEnv rfl rfl rfl rfl rfl rfl
  exact ⟨h.1.2 rfl, fun hm => absurd (h.2.1 hm) (by decide)⟩

/-- C2: every tick that starts with an attached configuration commits the
Config collaborator exactly once, as the final action of the tick,
regardless of which step aborted. -/
theorem c2_commit_exactly_once (i : Inst) (env : Env) (hc : i.configNil = false) :
    (Update i env).2.count Event.commit = 1 ∧
      (Update i env).2.getLast? = some Event.commit := by
  rw [Update_snd i env hc]
  refine ⟨?_, List.getLast?_concat _⟩
  rw [List.count_append, List.count_append]
  rw [List.count_eq_zero.2 (commit_not_mem_acmeUpdate i env),
    List.count_eq_zero.2 (commit_not_mem_haproxyUpdateBody i env)]
  rfl

/-- C2 witness: a concrete tick with a map-building failure still commits
exactly once at the end. -/
theorem c2_witness :
    (Update baseInst { baseEnv with writeTCPErr := true }).2.count Event.commit = 1 ∧
      (Update baseInst { baseEnv with writeTCPErr := true }).2.getLast? =
        some Event.commit :=
  c2_commit_exactly_once baseInst { baseEnv with writeTCPErr := true } rfl

/-- C5 counterexample: with the order configured as random and the updater
reporting updated=true, no shuffle happens, refuting the claim as stated
(the code shuffles only when a reload will be required). -/
theorem c5_counterexample :
    baseInst.options.sortEndpointsBy = "random" ∧
      ({ baseEnv with updated := true } : Env).updated = true ∧
      baseInst.configNil = false ∧
      ({ baseEnv with updated := true } : Env).writeTCPErr = false ∧
      ({ baseEnv with updated := true } : Env).writeFrontendErr = false ∧
      ({ baseEnv with updated := true } : Env).writeBackendErr = false ∧
      Event.shuffleAllEndpoints ∉ (Update baseInst { baseEnv with updated := true }).2 := by
  decide

/-- C5 (amended): when the configured order is not random, changed
endpoints are sorted by the configured criterion; when it is random, all
endpoint orderings are shuffled exactly when a reload will be required
(updated=false). -/
theorem c5_endpoint_ordering (i : Inst) (env : Env)
    (hc : i.configNil = false)
    (h1 : env.writeTCPErr = false) (h2 : env.writeFrontendErr = false)
    (h3 : env.writeBackendErr = false) :
    (i.options.sortEndpointsBy ≠ "random" →
       Event.sortChangedEndpoints i.options.sortEndpointsBy ∈ (Update i env).2 ∧
         Event.shuffleAllEndpoints ∉ (Update i env).2) ∧
      (i.options.sortEndpointsBy = "random" →
        (Event.shuffleAllEndpoints ∈ (Update i env).2 ↔ env.updated = false)) := by
  rw [Update_snd i env hc]
  constructor
  · intro hs
    constructor
    · exact List.mem_append.2 (Or.inl (List.mem_append.2 (Or.inr
        ((sortChanged_mem_haproxyUpdateBody i env h1 h2 h3).2 hs))))
    · rintro hmem
      rcases List.mem_append.1 hmem with h | h
      · rcases List.mem_append.1 h with h | h
        · exact shuffle_not_mem_acmeUpdate i env h
        · exact hs ((shuffle_mem_haproxyUpdateBody i env h1 h2 h3).1 h).1
      · simp at h
  · intro hs
    constructor
    · intro hmem
      rcases List.mem_append.1 hmem with h | h
      · rcases List.mem_append.1 h with h | h
        · exact absurd h (shuffle_not_mem_acmeUpdate i env)
        · exact ((shuffle_mem_haproxyUpdateBody i env h1 h2 h3).1 h).2
      · simp at h
    · intro hupd
      exact List.mem_append.2 (Or.inl (List.mem_append.2 (Or.inr
        ((shuffle_mem_haproxyUpdateBody i env h1 h2 h3).2 ⟨hs, hupd⟩))))

/-- C5 witness: with a non-random criterion the sort runs and no shuffle
occurs; with random order and updated=false the shuffle occurs. -/
theorem c5_witness :
    (Event.sortChangedEndpoints "ip" ∈
        (Update { baseInst with options := { baseOpts with sortEndpointsBy := "ip" } } baseEnv).2 ∧
      Event.shuffleAllEndpoints ∉
        (Update { baseInst with options := { baseOpts with sortEndpointsBy := "ip" } } baseEnv).2) ∧
      Event.shuffleAllEndpoints ∈ (Update baseInst baseEnv).2 := by
  have ha := c5_endpoint_ordering
    { baseInst with options := { baseOpts with sortEndpointsBy := "ip" } } baseEnv
    rfl rfl rfl rfl
  have hb := c5_endpoint_ordering baseInst baseEnv rfl rfl rfl rfl
  exact ⟨ha.1 (by decide), (hb.2 rfl).2 rfl⟩

end HAProxy

namespace HAProxy

/-- C3: a failed reload leaves failedSince at the first-failure time (set to
the current time only when previously clear, otherwise kept) and does not
touch up; a successful reload clears failedSince and sets up. -/
theorem c3_failedSince_stable (i : Inst) (env : Env) :
    (reloadOk i env = false →
       (Reload i env).1.failedSince = some (i.failedSince.getD env.now) ∧
         (Reload i env).1.up = i.up) ∧
      (reloadOk i env = true →
        (Reload i env).1.failedSince = none ∧ (Reload i env).1.up = true) := by
  constructor
  · intro hfail
    refine ⟨?_, ?_⟩
    · rw [Reload_fst_failedSince, hfail]
      rfl
    · rw [Reload_fst_up, hfail]
      simp
  · intro hok
    refine ⟨?_, ?_⟩
    · rw [Reload_fst_failedSince, hok]
      rfl
    · rw [Reload_fst_up, hok]
      simp

/-- C3 witness: a first failing reload stamps now=5; a second failing reload
keeps the stamp; a succeeding reload clears it and sets up. -/
theorem c3_witness :
    (Reload realInst failEnv).1.failedSince = some 5 ∧
      (Reload failingInst failEnv).1.failedSince = some 3 ∧
      (Reload failingInst baseEnv).1.failedSince = none ∧
      (Reload failingInst baseEnv).1.up = true := by
  refine ⟨?_, ?_, ?_, ?_⟩
  · exact (c3_failedSince_stable _ _).1 (by decide) |>.1
  · exact (c3_failedSince_stable _ _).1 (by decide) |>.1
  · exact (c3_failedSince_stable _ _).2 (by decide) |>.1
  · exact (c3_failedSince_stable _ _).2 (by decide) |>.2

/-- C4: when the reload command over the master socket and the following
show proc query both succeed at the transport level but the worker list is
empty, the external reload returns the dedicated error. -/
theorem c4_zero_workers_fails (i : Inst) (env : Env)
    (hwait : i.up = true ∨ env.firstContactSigterm = false)
    (hreload : env.masterReloadErr = false) (hprocs : env.procsErr = false)
    (hworkers : env.workers = 0) :
    reloadExternal i env =
      Except.error "external haproxy was not successfully reloaded" := by
  unfold reloadExternal
  rcases hwait with hup | hsig
  · rw [hup]
    simp [hreload, hprocs, hworkers]
  · rw [hsig]
    simp [hreload, hprocs, hworkers]

/-- C4 witness: an up instance, clean transport, zero workers. -/
theorem c4_witness :
    reloadExternal { baseInst with up := true } { baseEnv with workers := 0 } =
      Except.error "external haproxy was not successfully reloaded" :=
  c4_zero_workers_fails { baseInst with up := true } { baseEnv with workers := 0 }
    (Or.inl rfl) rfl rfl rfl

/-- C10: every Reload call increments the full-reload metric exactly once,
as the first action, before the reload attempt, on success and failure
alike. -/
theorem c10_full_metric_once (i : Inst) (env : Env) :
    (Reload i env).2.count Event.incUpdateFull = 1 ∧
      (Reload i env).2.head? = some Event.incUpdateFull := by
  rw [Reload_snd]
  exact ⟨by simp [List.count_cons], rfl⟩

end HAProxy

namespace HAProxy

theorem acmeUpdate_nonleader_shape (i : Inst) (env : Env)
    (h : env.isLeader = false) :
    acmeUpdate i env = [] ∨
      (acmeUpdate i env = [Event.logSkipAcmeUpdate] ∧ env.storagesUpdated = true) := by
  unfold acmeUpdate
  split
  · exact Or.inl rfl
  · rw [h]
    simp only [Bool.false_eq_true, if_false]
    split
    · exact Or.inr ⟨rfl, by assumption⟩
    · exact Or.inl rfl

/-- C6: a tick of the acme scheduler on a non-leader replica neither
enqueues nor removes any storage, and logs the skip notice only if the
storages changed since the last check. -/
theorem c6_nonleader_frame (i : Inst) (env : Env) (h : env.isLeader = false) :
    (∀ s, Event.acmeQueueAdd s ∉ acmeUpdate i env) ∧
      (∀ s, Event.acmeQueueRemove s ∉ acmeUpdate i env) ∧
      (Event.logSkipAcmeUpdate ∈ acmeUpdate i env → env.storagesUpdated = true) := by
  rcases acmeUpdate_nonleader_shape i env h with hs | ⟨hs, hupd⟩ <;> rw [hs]
  · exact ⟨fun s => by simp, fun s => by simp, fun hm => by simp at hm⟩
  · exact ⟨fun s => by simp, fun s => by simp, fun _ => hupd⟩

/-- C6 witness: non-leader tick with two new storages enqueues nothing. -/
theorem c6_witness :
    Event.acmeQueueAdd "crt1" ∉
      acmeUpdate baseInst { baseEnv with storagesAdd := ["crt1", "crt2"] } :=
  (c6_nonleader_frame baseInst { baseEnv with storagesAdd := ["crt1", "crt2"] } rfl).1 "crt1"

/-- C7: AcmeCheck fails exactly on the four guards, checked in source
order (not yet up, queue unconfigured, no CA account, not leader), and
otherwise enqueues every storage needing issuance and returns the count. -/
theorem c7_acmeCheck_guards (i : Inst) (env : Env) :
    (i.up = false →
       (AcmeCheck i env).2.1 = Except.error "controller was not started yet") ∧
      (i.up = true → i.options.acmeQueue = false →
        (AcmeCheck i env).2.1 = Except.error "Acme queue was not configured") ∧
      (i.up = true → i.options.acmeQueue = true → env.hasAccount = false →
        (AcmeCheck i env).2.1 =
          Except.error "Cannot create or retrieve the acme client account") ∧
      (i.up = true → i.options.acmeQueue = true → env.hasAccount = true →
          env.isLeader = false →
        (AcmeCheck i env).2.1 =
          Except.error ("skipping acme periodic check, leader is " ++ env.leaderName)) ∧
      (i.up = true → i.options.acmeQueue = true → env.hasAccount = true →
          env.isLeader = true →
        (AcmeCheck i env).2.1 = Except.ok env.buildAcmeStorages.length ∧
          (AcmeCheck i env).2.2 = env.buildAcmeStorages.map Event.acmeQueueAdd) ∧
      ((∃ msg, (AcmeCheck i env).2.1 = Except.error msg) ↔
        (i.up = false ∨ i.options.acmeQueue = false ∨ env.hasAccount = false ∨
          env.isLeader = false)) := by
  cases hu : i.up <;> cases hq : i.options.acmeQueue <;>
    cases ha : env.hasAccount <;> cases hl : env.isLeader <;>
    simp [AcmeCheck, hu, hq, ha, hl]

/-- C7 witness: before the first successful reload AcmeCheck reports the
not-started error. -/
theorem c7_witness :
    (AcmeCheck baseInst baseEnv).2.1 =
      Except.error "controller was not started yet" :=
  (c7_acmeCheck_guards baseInst baseEnv).1 rfl

set_option maxHeartbeats 1000000 in
theorem haproxyUpdateBody_fst_up (i : Inst) (env : Env) :
    (i.up = true → (haproxyUpdateBody i env).1.up = true) ∧
      ((haproxyUpdateBody i env).1.up = true →
        i.up = true ∨ reloadOk i env = true) := by
  cases h1 : env.writeTCPErr <;> cases h2 : env.writeFrontendErr <;>
    cases h3 : env.writeBackendErr <;> cases h4 : env.updated <;>
    cases h5 : env.writeConfigErr <;> cases h6 : i.options.reloadQueue <;>
    cases h7 : i.options.validateConfig <;>
    cases h9 : env.cmdCnt <;>
    simp [haproxyUpdateBody, h1, h2, h3, h4, h5, h6, h7, h9,
      updateSuccessful_fst_up, Reload_fst_up] <;>
    tauto

theorem AcmeCheck_fst (i : Inst) (env : Env) : (AcmeCheck i env).1 = i := by
  unfold AcmeCheck
  repeat' split
  all_goals rfl

/-- C9: up is monotone across every Instance operation and is set to true
only by a Reload whose reloadHAProxy call succeeded; AcmeCheck and
CalcIdleMetric never write instance fields. -/
theorem c9_up_monotone (i : Inst) (env : Env) :
    ((Reload i env).1.up = (i.up || reloadOk i env)) ∧
      (i.up = true → (Update i env).1.up = true) ∧
      ((Update i env).1.up = true → i.up = true ∨ reloadOk i env = true) ∧
      ((AcmeCheck i env).1 = i) ∧
      (CalcIdleMetric i env = i) := by
  refine ⟨Reload_fst_up i env, ?_, ?_, AcmeCheck_fst i env, rfl⟩
  · intro hup
    unfold Update haproxyUpdate
    split
    · exact hup
    · exact (haproxyUpdateBody_fst_up i env).1 hup
  · intro hup
    unfold Update haproxyUpdate at hup
    split at hup
    · exact Or.inl hup
    · exact (haproxyUpdateBody_fst_up i env).2 hup

/-- C9 witness: an instance already up stays up across a tick. -/
theorem c9_witness : (Update upInst baseEnv).1.up = true :=
  (c9_up_monotone upInst baseEnv).2.1 rfl

end HAProxy

namespace HAProxy

theorem lookup_mem {l : List (String × TLSData)} {a : String} {b : TLSData}
    (h : l.lookup a = some b) : (a, b) ∈ l := by
  induction l with
  | nil => simp [List.lookup] at h
  | cons p t ih =>
    obtain ⟨k, v⟩ := p
    rw [List.lookup] at h
    cases hk : (a == k) with
    | true =>
      rw [hk] at h
      simp only [Option.some.injEq] at h
      exact List.mem_cons.2 (Or.inl (by rw [eq_of_beq hk, h]))
    | false =>
      rw [hk] at h
      exact List.mem_cons.2 (Or.inr (ih h))

theorem lookup_unique {l : List (String × TLSData)}
    (hnd : (l.map Prod.fst).Nodup) {a : String} {b c : TLSData}
    (hl : l.lookup a = some b) (hm : (a, c) ∈ l) : c = b := by
  induction l with
  | nil => cases hm
  | cons p t ih =>
    obtain ⟨k, v⟩ := p
    rw [List.map_cons] at hnd
    have hnd2 := List.nodup_cons.1 hnd
    rw [List.lookup] at hl
    rcases List.mem_cons.1 hm with he | hm2
    · have hak : a = k := congrArg Prod.fst he
      have hcv : c = v := congrArg Prod.snd he
      rw [hak] at hl
      rw [BEq.refl] at hl
      simp only [Option.some.injEq] at hl
      rw [hcv, hl]
    · have hamem : a ∈ t.map Prod.fst := List.mem_map.2 ⟨(a, c), hm2, rfl⟩
      cases hk2 : (a == k) with
      | true =>
        rw [eq_of_beq hk2] at hamem
        exact absurd hamem hnd2.1
      | false =>
        rw [hk2] at hl
        exact ih hnd2.2 hl hm2

theorem certExpireDelEvents_elim {hostsAdd hostsDel : List (String × TLSData)}
    {e : Event} (h : e ∈ certExpireDelEvents hostsAdd hostsDel) :
    ∃ p, p ∈ hostsDel ∧ p.2.hasTLS = true ∧
      e = Event.setCertExpireDate p.1 p.2.commonName none ∧
      ∀ cur, hostsAdd.lookup p.1 = some cur → p.2.commonName ≠ cur.commonName := by
  rw [certExpireDelEvents, List.mem_flatMap] at h
  obtain ⟨p, hp, hmem⟩ := h
  split at hmem
  · split at hmem
    · simp only [List.mem_singleton] at hmem
      refine ⟨p, hp, by assumption, hmem, ?_⟩
      intro cur hcur
      simp_all
    · split at hmem
      · simp only [List.mem_singleton] at hmem
        refine ⟨p, hp, by assumption, hmem, ?_⟩
        intro cur hcur
        simp_all
      · simp at hmem
  · simp at hmem

theorem certExpireAddEvents_elim {hostsAdd hostsDel : List (String × TLSData)}
    {e : Event} (h : e ∈ certExpireAddEvents hostsAdd hostsDel) :
    ∃ p, p ∈ hostsAdd ∧ p.2.hasTLS = true ∧
      e = Event.setCertExpireDate p.1 p.2.commonName (some p.2.notAfter) ∧
      ∀ old, hostsDel.lookup p.1 = some old →
        old.commonName ≠ p.2.commonName ∨ old.notAfter ≠ p.2.notAfter := by
  rw [certExpireAddEvents, List.mem_flatMap] at h
  obtain ⟨p, hp, hmem⟩ := h
  split at hmem
  · split at hmem
    · simp only [List.mem_singleton] at hmem
      refine ⟨p, hp, by assumption, hmem, ?_⟩
      intro old hold
      simp_all
    · split at hmem
      · simp only [List.mem_singleton] at hmem
        refine ⟨p, hp, by assumption, hmem, ?_⟩
        intro old hold
        simp_all
      · simp at hmem
  · simp at hmem

theorem certExpireAddEvents_intro {hostsAdd hostsDel : List (String × TLSData)}
    {hn : String} {tnew : TLSData} (hp : (hn, tnew) ∈ hostsAdd)
    (htls : tnew.hasTLS = true) {told : TLSData}
    (hlook : hostsDel.lookup hn = some told)
    (hne : told.commonName ≠ tnew.commonName ∨ told.notAfter ≠ tnew.notAfter) :
    Event.setCertExpireDate hn tnew.commonName (some tnew.notAfter) ∈
      certExpireAddEvents hostsAdd hostsDel := by
  rw [certExpireAddEvents, List.mem_flatMap]
  refine ⟨(hn, tnew), hp, ?_⟩
  simp [htls, hlook, hne]

end HAProxy

namespace HAProxy

/-- C8: during the cert-expiry bookkeeping of a committing tick, a host
present in both change-sets with TLS and an unchanged common name gets no
gauge mutation at all when the not-after also matches, and gets exactly an
update to the new not-after (never a clear) when only the not-after
differs. -/
theorem c8_cert_gauge (env : Env) (hn : String) (told tnew : TLSData)
    (hndAdd : (env.hostsAdd.map Prod.fst).Nodup)
    (hndDel : (env.hostsDel.map Prod.fst).Nodup)
    (hdel : env.hostsDel.lookup hn = some told)
    (hadd : env.hostsAdd.lookup hn = some tnew)
    (htlsNew : tnew.hasTLS = true)
    (hcn : told.commonName = tnew.commonName)
    (hcommit : env.hasCommit = true) :
    (told.notAfter = tnew.notAfter →
       ∀ c n, Event.setCertExpireDate hn c n ∉ updateCertExpiring env) ∧
      (told.notAfter ≠ tnew.notAfter →
        Event.setCertExpireDate hn tnew.commonName (some tnew.notAfter) ∈
            updateCertExpiring env ∧
          ∀ c, Event.setCertExpireDate hn c none ∉ updateCertExpiring env) ∧
      Event.clearCertExpire ∉ updateCertExpiring env := by
  have hsplit : updateCertExpiring env =
      certExpireDelEvents env.hostsAdd env.hostsDel ++
        certExpireAddEvents env.hostsAdd env.hostsDel := by
    simp [updateCertExpiring, hcommit]
  have hdelnone : ∀ c n, Event.setCertExpireDate hn c n ∉
      certExpireDelEvents env.hostsAdd env.hostsDel := by
    intro c n hmem
    obtain ⟨p, hp, htls2, heq, hcond⟩ := certExpireDelEvents_elim hmem
    simp only [Event.setCertExpireDate.injEq] at heq
    obtain ⟨h1, h2, h3⟩ := heq
    have hp2 : (hn, p.2) ∈ env.hostsDel := by
      rw [h1, Prod.mk.eta]
      exact hp
    have hpt : p.2 = told := lookup_unique hndDel hdel hp2
    have hadd2 : env.hostsAdd.lookup p.1 = some tnew := by
      rw [← h1]
      exact hadd
    exact hcond tnew hadd2 (by rw [hpt]; exact hcn)
  refine ⟨?_, ?_, ?_⟩
  · intro heqNA c n hmem
    rw [hsplit, List.mem_append] at hmem
    rcases hmem with hmem | hmem
    · exact hdelnone c n hmem
    · obtain ⟨p, hp, htls2, heq, hcond⟩ := certExpireAddEvents_elim hmem
      simp only [Event.setCertExpireDate.injEq] at heq
      obtain ⟨h1, h2, h3⟩ := heq
      have hp2 : (hn, p.2) ∈ env.hostsAdd := by
        rw [h1, Prod.mk.eta]
        exact hp
      have hpt : p.2 = tnew := lookup_unique hndAdd hadd hp2
      have hdel2 : env.hostsDel.lookup p.1 = some told := by
        rw [← h1]
        exact hdel
      rcases hcond told hdel2 with hne | hne
      · rw [hpt] at hne
        exact hne hcn
      · rw [hpt] at hne
        exact hne heqNA
  · intro hneNA
    constructor
    · rw [hsplit, List.mem_append]
      exact Or.inr
        (certExpireAddEvents_intro (lookup_mem hadd) htlsNew hdel (Or.inr hneNA))
    · intro c hmem
      rw [hsplit, List.mem_append] at hmem
      rcases hmem with hmem | hmem
      · exact hdelnone c none hmem
      · obtain ⟨p, hp, htls2, heq, hcond⟩ := certExpireAddEvents_elim hmem
        simp at heq
  · intro hmem
    rw [hsplit, List.mem_append] at hmem
    rcases hmem with hmem | hmem
    · obtain ⟨a, b, h2⟩ := mem_certExpireDelEvents hmem
      simp at h2
    · obtain ⟨a, b, n2, h2⟩ := mem_certExpireAddEvents hmem
      simp at h2

/-- C8 witness: identical TLS yields no mutation for the host; a renewed
not-after yields an update to the new value. -/
theorem c8_witness :
    (∀ c n, Event.setCertExpireDate "a.example.com" c n ∉
        updateCertExpiring certEnvSame) ∧
      Event.setCertExpireDate "a.example.com" "cn1" (some 200) ∈
        updateCertExpiring certEnvDiff := by
  constructor
  · exact (c8_cert_gauge certEnvSame "a.example.com" tlsA tlsA
      (by decide) (by decide) (by decide) (by decide) (by decide) rfl rfl).1 rfl
  · exact ((c8_cert_gauge certEnvDiff "a.example.com" tlsA tlsB
      (by decide) (by decide) (by decide) (by decide) (by decide) rfl rfl).2.1
      (by decide)).1

end HAProxy
